import Mathlib

/-!
# Inventory Reservation & Allocation Engine — verification

Shallow embedding of `ProductVariantInventoryService`
(`src/packages/medusa/src/services/product-variant-inventory.ts`).

The service branches on the presence of an injected `inventoryService_`
collaborator: absent means Simple Mode (a single `inventory_quantity`
counter on the variant), present means Ledger Mode (variant→item links
fanned out to reservations in an external ledger).  External collaborators
(variant store, sales-channel-location resolver, stock-location directory,
inventory ledger) are modelled as data carried in an `Env` record; each
service method becomes a pure function from its inputs and the relevant
environment to an `Except` result describing the outcome, with ledger
writes reified as returned values.
-/

namespace MedusaInventory

/-- `MedusaError.Types` values used by the service: `NOT_FOUND`,
`INVALID_DATA` (invalid quantity / missing location), `NOT_ALLOWED`
(insufficient stock).  Each error carries its message string. -/
inductive Err where
  | notFound (msg : String)
  | invalidData (msg : String)
  | notAllowed (msg : String)
deriving DecidableEq, Repr

/-- The inventory-relevant fields of `ProductVariant` as selected by the
service (`allow_backorder`, `manage_inventory`, `inventory_quantity`). -/
structure Variant where
  id : String
  allow_backorder : Bool
  manage_inventory : Bool
  inventory_quantity : Int
deriving DecidableEq, Repr

/-- `ProductVariantInventoryItem`: one row of the variant→item link table,
with `quantity` the bill-of-materials multiplier. -/
structure Link where
  variant_id : String
  inventory_item_id : String
  quantity : Int
deriving DecidableEq, Repr

/-- A reservation row as returned by the ledger's `listReservationItems`
(fields the service reads: `id`, `inventory_item_id`, `location_id`,
`quantity`, `created_at`). -/
structure Reservation where
  id : String
  inventory_item_id : String
  location_id : String
  quantity : Int
  created_at : Nat
deriving DecidableEq, Repr

/-- The argument record of a `createReservationItem` ledger call issued by
`reserveQuantity`.  `location_id` is an `Option` because the source passes
`locationId as string` even when no location was resolved (it is then the
JS value `undefined`). -/
structure ReservationInput where
  rtype : String
  line_item_id : Option String
  location_id : Option String
  inventory_item_id : String
  quantity : Int
deriving DecidableEq, Repr

/-- A stock level row as returned by the ledger's `listInventoryLevels`. -/
structure InventoryLevel where
  inventory_item_id : String
  location_id : String
  stocked_quantity : Int
deriving DecidableEq, Repr

/-- A fulfillment `LineItem` as read by `validateInventoryAtLocation`
(`variant_id`, `quantity`, `title`). -/
structure LineItem where
  variant_id : Option String
  quantity : Int
  title : String
deriving DecidableEq, Repr

/-- The external collaborators the service reads from.
`variants` is the variant store; `links` the link-table repository;
`channelLocations` the sales-channel-location resolver
(`listLocations`); `stockLocations` the ids returned by
`stockLocationService.list`; `confirmAvail` the ledger's
`confirmInventory(itemId, locationIds, quantity)` oracle. -/
structure Env where
  variants : List Variant
  links : List Link
  channelLocations : String → List String
  stockLocations : List String
  confirmAvail : String → List String → Int → Bool

/-- `productVariantService.retrieve`: `findOne` by id, `NOT_FOUND` when
absent. -/
def retrieveVariant (variants : List Variant) (variantId : String) :
    Except Err Variant :=
  match variants.find? (fun v => v.id == variantId) with
  | some v => .ok v
  | none => .error (.notFound ("Variant with id " ++ variantId ++ " was not found"))

/-- `listByVariant`: the link rows whose `variant_id` matches. -/
def listByVariant (links : List Link) (variantId : String) : List Link :=
  links.filter (fun l => l.variant_id == variantId)

/-- Location resolution inside `confirmInventory`: a truthy
`context.salesChannelId` resolves through the sales-channel service,
otherwise all stock locations are listed. -/
def confirmLocations (env : Env) (salesChannelId : Option String) :
    List String :=
  match salesChannelId with
  | some sc => env.channelLocations sc
  | none => env.stockLocations

/-- `confirmInventory(variantId, quantity, context)`.  A falsy `variantId`
returns `true`; a variant with `allow_backorder` or unmanaged inventory
returns `true`; Simple Mode (`hasLedger = false`) compares the counter;
Ledger Mode returns `true` on zero links, else asks the ledger to confirm
`link.quantity * quantity` per linked item over the resolved locations and
ANDs the answers. -/
def confirmInventory (env : Env) (hasLedger : Bool) (variantId : Option String)
    (quantity : Int) (salesChannelId : Option String) : Except Err Bool :=
  match variantId with
  | none => .ok true
  | some vid =>
    match retrieveVariant env.variants vid with
    | .error e => .error e
    | .ok productVariant =>
      if productVariant.allow_backorder || !productVariant.manage_inventory then
        .ok true
      else if !hasLedger then
        .ok (decide (quantity ≤ productVariant.inventory_quantity))
      else
        let variantInventory := listByVariant env.links vid
        if variantInventory.length == 0 then
          .ok true
        else
          let locations := confirmLocations env salesChannelId
          .ok (variantInventory.all (fun inventoryPart =>
            env.confirmAvail inventoryPart.inventory_item_id locations
              (inventoryPart.quantity * quantity)))

/-- `attachInventoryItem(variantId, inventoryItemId, quantity?)`.
The source first verifies the variant and the inventory item exist, then
looks up an existing link row and returns it unchanged when present; only
afterwards does it validate the supplied quantity (`< 1` throws
`INVALID_DATA`, undefined defaults to 1) and save a new row.  The result
pairs the returned link with the link table after the call. -/
def attachInventoryItem (variants : List Variant) (inventoryItems : List String)
    (links : List Link) (variantId inventoryItemId : String)
    (quantity : Option Int) : Except Err (Link × List Link) :=
  match retrieveVariant variants variantId with
  | .error e => .error e
  | .ok _ =>
    if !(inventoryItems.contains inventoryItemId) then
      .error (.notFound ("Inventory item with id " ++ inventoryItemId ++ " not found"))
    else
      match links.find? (fun l =>
          l.variant_id == variantId && l.inventory_item_id == inventoryItemId) with
      | some existing => .ok (existing, links)
      | none =>
        match quantity with
        | some q =>
          if q < 1 then
            .error (.invalidData "Quantity must be greater than 0")
          else
            let row : Link := ⟨variantId, inventoryItemId, q⟩
            .ok (row, links ++ [row])
        | none =>
          let row : Link := ⟨variantId, inventoryItemId, 1⟩
          .ok (row, links ++ [row])

/-- The optional context argument of `reserveQuantity`
(`ReserveQuantityContext`). -/
structure ReserveCtx where
  lineItemId : Option String
  locationId : Option String
  salesChannelId : Option String
deriving DecidableEq, Repr

/-- The message of the `INVALID_DATA` error thrown by `reserveQuantity`
when a supplied sales channel has no associated stock locations. -/
def locationRequiredMsg : String :=
  "Must provide location_id or sales_channel_id to a Sales Channel that has associated Stock Locations"

/-- The location used for reservation placement in `reserveQuantity`
(Ledger Mode): `context.locationId` when defined; otherwise, when
`context.salesChannelId` is truthy, the first location of that channel,
failing with `INVALID_DATA` when the channel has none; otherwise the
location stays undefined and the call proceeds. -/
def resolveReserveLocation (env : Env) (ctx : ReserveCtx) :
    Except Err (Option String) :=
  match ctx.locationId with
  | some l => .ok (some l)
  | none =>
    match ctx.salesChannelId with
    | some sc =>
      match env.channelLocations sc with
      | [] => .error (.invalidData locationRequiredMsg)
      | l :: _ => .ok (some l)
    | none => .ok none

/-- `reserveQuantity` in Simple Mode (no ledger wired in): retrieve the
variant (selecting only `id` and `inventory_quantity` — `manage_inventory`
is not consulted) and decrement its counter by `quantity`.  Returns the
updated variant store. -/
def reserveQuantitySimple (variants : List Variant) (variantId : String)
    (quantity : Int) : Except Err (List Variant) :=
  match retrieveVariant variants variantId with
  | .error e => .error e
  | .ok variant =>
    .ok (variants.map (fun v =>
      if v.id == variant.id then
        { v with inventory_quantity := v.inventory_quantity - quantity }
      else v))

/-- `reserveQuantity` in Ledger Mode: zero links is an early return with
no ledger writes; otherwise the location is resolved as in
`resolveReserveLocation` and one `createReservationItem` call is issued
per link, with `type = "order"`, the context's `lineItemId`, and quantity
`link.quantity * quantity`.  The result is the list of issued
`createReservationItem` arguments. -/
def reserveQuantityLedger (env : Env) (variantId : String) (quantity : Int)
    (ctx : ReserveCtx) : Except Err (List ReservationInput) :=
  let variantInventory := listByVariant env.links variantId
  if variantInventory.length == 0 then
    .ok []
  else
    match resolveReserveLocation env ctx with
    | .error e => .error e
    | .ok locationId =>
      .ok (variantInventory.map (fun inventoryPart =>
        { rtype := "order"
          line_item_id := ctx.lineItemId
          location_id := locationId
          inventory_item_id := inventoryPart.inventory_item_id
          quantity := inventoryPart.quantity * quantity }))

/-- `adjustReservationsQuantityByLineItem` in Simple Mode: retrieve the
variant; when `manage_inventory` is false, do nothing; else decrement the
counter by `quantity`. -/
def adjustReservationsQuantityByLineItemSimple (variants : List Variant)
    (variantId : String) (quantity : Int) : Except Err (List Variant) :=
  match retrieveVariant variants variantId with
  | .error e => .error e
  | .ok variant =>
    if !variant.manage_inventory then
      .ok variants
    else
      .ok (variants.map (fun v =>
        if v.id == variantId then
          { v with inventory_quantity := v.inventory_quantity - quantity }
        else v))

/-- The ledger write performed by `adjustReservationsQuantityByLineItem`
in Ledger Mode: nothing, a `deleteReservationItem`, or an
`updateReservationItem` with the new quantity. -/
inductive AdjustAction where
  | noop
  | delete (reservationId : String)
  | update (reservationId : String) (newQuantity : Int)
deriving DecidableEq, Repr

/-- The reservation targeted by `adjustReservationsQuantityByLineItem`:
the first of the listing (which the ledger returns ordered by `created_at`
descending), unless some listed reservation sits at `locationId` with
`quantity ≥` the requested (signed) adjustment, in which case the first
such reservation is preferred. -/
def pickReservation (reservations : List Reservation) (locationId : String)
    (quantity : Int) : Option Reservation :=
  match reservations with
  | [] => none
  | r0 :: _ =>
    some ((reservations.find? (fun r =>
      r.location_id == locationId && quantity ≤ r.quantity)).getD r0)

/-- `adjustReservationsQuantityByLineItem` in Ledger Mode, applied to the
reservation rows the ledger listed for the line item (ordered by
`created_at` descending).  A zero count does nothing; otherwise the
targeted reservation's link row is retrieved (`NOT_FOUND` when the
(item, variant) pair is not linked) and the new quantity is
`reservation.quantity - quantity * link.quantity`: exactly zero deletes
the reservation, anything else updates it in place. -/
def adjustReservationsQuantityByLineItemLedger (links : List Link)
    (reservations : List Reservation) (variantId locationId : String)
    (quantity : Int) : Except Err AdjustAction :=
  match pickReservation reservations locationId quantity with
  | none => .ok .noop
  | some reservation =>
    match links.find? (fun l =>
        l.inventory_item_id == reservation.inventory_item_id
          && l.variant_id == variantId) with
    | none =>
      .error (.notFound ("Inventory item with id " ++ reservation.inventory_item_id ++ " not found"))
    | some productVariantInventory =>
      let reservationQtyUpdate :=
        reservation.quantity - quantity * productVariantInventory.quantity
      if reservationQtyUpdate == 0 then
        .ok (.delete reservation.id)
      else
        .ok (.update reservation.id reservationQtyUpdate)

/-- `deleteReservationsByLineItem` in Simple Mode: retrieve the variant;
when `manage_inventory` is false, do nothing; else increment the counter
by `quantity`. -/
def deleteReservationsByLineItemSimple (variants : List Variant)
    (variantId : String) (quantity : Int) : Except Err (List Variant) :=
  match retrieveVariant variants variantId with
  | .error e => .error e
  | .ok variant =>
    if !variant.manage_inventory then
      .ok variants
    else
      .ok (variants.map (fun v =>
        if v.id == variantId then
          { v with inventory_quantity := v.inventory_quantity + quantity }
        else v))

/-- The ledger's `listInventoryLevels({inventory_item_id, location_id})`:
the stock-level rows whose item is among `itemIds` and whose location is
`locationId`. -/
def listInventoryLevels (levels : List InventoryLevel) (itemIds : List String)
    (locationId : String) : List InventoryLevel :=
  levels.filter (fun lv =>
    itemIds.contains lv.inventory_item_id && lv.location_id == locationId)

/-- The `pviMap` built by `validateInventoryAtLocation`: the variant's
link rows keyed by `inventory_item_id`. -/
def buildPviMap (pvInventoryItems : List Link) : List (String × Link) :=
  pvInventoryItems.map (fun pvi => (pvi.inventory_item_id, pvi))

/-- The lookup the source performs on `pviMap`:
`pviMap[inventoryLevel.inventory_item_id]`.  `pviMap` is a JS `Map`
instance, and bracket access on a `Map` reads an object property, not the
map's entries, so for the inventory-item-id keys at hand it evaluates to
`undefined` — the entries stored via the `Map` constructor are never
consulted. -/
def pviMapBracketGet (_pviMap : List (String × Link)) (_key : String) :
    Option Link :=
  none

/-- The lookup `validateInventoryAtLocation` evidently intends,
`pviMap.get(inventoryLevel.inventory_item_id)`: the entry stored for that
key (link rows are unique per (variant, item) pair, so first match
suffices). -/
def pviMapGet (pviMap : List (String × Link)) (key : String) : Option Link :=
  (pviMap.find? (fun e => e.fst == key)).map Prod.snd

/-- The inner loop of `validateInventoryAtLocation` over the stock levels
found for one line item, parametrised by the `pviMap` lookup used.  A
level whose lookup misses, or whose looked-up multiplier times the line
quantity exceeds the stocked quantity, throws `NOT_ALLOWED`
("Insufficient stock for item: <title>"). -/
def checkInventoryLevels (lookup : List (String × Link) → String → Option Link)
    (pviMap : List (String × Link)) (item : LineItem) :
    List InventoryLevel → Except Err Unit
  | [] => .ok ()
  | inventoryLevel :: rest =>
    match lookup pviMap inventoryLevel.inventory_item_id with
    | none => .error (.notAllowed ("Insufficient stock for item: " ++ item.title))
    | some pvInventoryItem =>
      if inventoryLevel.stocked_quantity < pvInventoryItem.quantity * item.quantity then
        .error (.notAllowed ("Insufficient stock for item: " ++ item.title))
      else
        checkInventoryLevels lookup pviMap item rest

/-- The body of `validateInventoryAtLocation` for one line item (already
filtered to carry a variant), parametrised by the `pviMap` lookup. -/
def validateOneItem (lookup : List (String × Link) → String → Option Link)
    (links : List Link) (levels : List InventoryLevel) (locationId : String)
    (item : LineItem) : Except Err Unit :=
  match item.variant_id with
  | none => .ok ()
  | some vid =>
    let pvInventoryItems := listByVariant links vid
    let inventoryLevels := listInventoryLevels levels
      (pvInventoryItems.map (fun i => i.inventory_item_id)) locationId
    checkInventoryLevels lookup (buildPviMap pvInventoryItems) item inventoryLevels

/-- Sequencing of the per-item loop. -/
def validateItemsLoop (lookup : List (String × Link) → String → Option Link)
    (links : List Link) (levels : List InventoryLevel) (locationId : String) :
    List LineItem → Except Err Unit
  | [] => .ok ()
  | item :: rest =>
    match validateOneItem lookup links levels locationId item with
    | .error e => .error e
    | .ok _ => validateItemsLoop lookup links levels locationId rest

/-- `validateInventoryAtLocation(items, locationId)` as written: Simple
Mode returns immediately; Ledger Mode walks the line items that carry a
variant and checks each stock level found at the location through the
bracket-access lookup (`pviMapBracketGet`).  It performs no mutation. -/
def validateInventoryAtLocation (hasLedger : Bool) (links : List Link)
    (levels : List InventoryLevel) (items : List LineItem)
    (locationId : String) : Except Err Unit :=
  if !hasLedger then .ok ()
  else
    validateItemsLoop pviMapBracketGet links levels locationId
      (items.filter (fun item => item.variant_id.isSome))

/-- `validateInventoryAtLocation` with the intended `Map.prototype.get`
lookup in place of the bracket access: the quantity comparison then
actually runs against the stored multipliers. -/
def validateInventoryAtLocationIntended (hasLedger : Bool) (links : List Link)
    (levels : List InventoryLevel) (items : List LineItem)
    (locationId : String) : Except Err Unit :=
  if !hasLedger then .ok ()
  else
    validateItemsLoop pviMapGet links levels locationId
      (items.filter (fun item => item.variant_id.isSome))

/-- The ledger's listing contract used by
`adjustReservationsQuantityByLineItem`: `listReservationItems` is called
with `order: { created_at: "DESC" }`, so the rows arrive ordered by
creation time descending (most recent first). -/
abbrev sortedByCreatedDesc (reservations : List Reservation) : Prop :=
  List.Pairwise (fun a b => b.created_at ≤ a.created_at) reservations

/-- Modelled from the spec's words for the adjustment target: "pick the
most recently created reservation as the default target, but prefer one
already placed at `locationId` with quantity ≥ the requested adjustment
magnitude if one exists" — the comparison is against the absolute value
of the signed delta. -/
def claimPickReservation (reservations : List Reservation)
    (locationId : String) (quantity : Int) : Option Reservation :=
  match reservations with
  | [] => none
  | r0 :: _ =>
    some ((reservations.find? (fun r =>
      r.location_id == locationId && |quantity| ≤ r.quantity)).getD r0)

/-- C8: for every variant with `allow_backorder = true` or
`manage_inventory = false`, and in both consistency modes,
`confirmInventory` returns `true` for any requested quantity; a
null/absent `variantId` also returns `true`. -/
theorem confirmInventory_backorder_or_unmanaged (env : Env) (hasLedger : Bool)
    (vid : String) (v : Variant) (quantity : Int) (scid : Option String)
    (hv : env.variants.find? (fun x => x.id == vid) = some v)
    (hflag : v.allow_backorder = true ∨ v.manage_inventory = false) :
    confirmInventory env hasLedger (some vid) quantity scid = .ok true ∧
    confirmInventory env hasLedger none quantity scid = .ok true := by
  constructor
  · simp only [confirmInventory, retrieveVariant, hv]
    rcases hflag with h | h <;> simp [h]
  · rfl

/-- Witness for `confirmInventory_backorder_or_unmanaged`: a backordered
variant with a zero counter and a ledger that refuses everything still
confirms a huge quantity. -/
theorem confirmInventory_backorder_or_unmanaged_witness :
    confirmInventory
        ⟨[⟨"V1", true, true, 0⟩], [⟨"V1", "I1", 1⟩], fun _ => [], ["L1"],
          fun _ _ _ => false⟩
        true (some "V1") 1000000 none = .ok true ∧
    confirmInventory
        ⟨[⟨"V1", true, true, 0⟩], [⟨"V1", "I1", 1⟩], fun _ => [], ["L1"],
          fun _ _ _ => false⟩
        true none 1000000 none = .ok true :=
  confirmInventory_backorder_or_unmanaged _ true "V1" ⟨"V1", true, true, 0⟩
    1000000 none rfl (Or.inl rfl)

/-- C10: in Ledger Mode, a line item with zero existing reservations makes
`adjustReservationsQuantityByLineItem` return successfully with no
reservation created, updated or deleted. -/
theorem adjustReservationsLedger_no_reservations (links : List Link)
    (variantId locationId : String) (quantity : Int) :
    adjustReservationsQuantityByLineItemLedger links [] variantId locationId
      quantity = .ok .noop :=
  rfl

/-- C1: `validateInventoryAtLocation`'s lookup `pviMap[...]` is bracket
property access on a JS `Map`, so it never sees the stored entries.  At a
line item of quantity 1 whose variant links to `I1` with multiplier 1,
and a location stocking 100 units of `I1` (amply sufficient), the call as
written fails with `InsufficientStock`, while the intended
`Map.prototype.get` version succeeds; and when the linked item has no
stock level at the location at all, both versions succeed, although the
claim requires a failure there. -/
theorem validateInventoryAtLocation_bracket_bug :
    validateInventoryAtLocation true [⟨"V1", "I1", 1⟩] [⟨"I1", "loc-1", 100⟩]
      [⟨some "V1", 1, "widget"⟩] "loc-1" =
      .error (.notAllowed "Insufficient stock for item: widget") ∧
    validateInventoryAtLocationIntended true [⟨"V1", "I1", 1⟩]
      [⟨"I1", "loc-1", 100⟩] [⟨some "V1", 1, "widget"⟩] "loc-1" = .ok () ∧
    validateInventoryAtLocation true [⟨"V1", "I1", 3⟩] []
      [⟨some "V1", 2, "widget"⟩] "loc-1" = .ok () ∧
    validateInventoryAtLocationIntended true [⟨"V1", "I1", 3⟩] []
      [⟨some "V1", 2, "widget"⟩] "loc-1" = .ok () :=
  ⟨rfl, rfl, rfl, rfl⟩

/-- C2 counterexample: two stock locations exist, the variant has a
linked item, and neither `locationId` nor `salesChannelId` is supplied —
yet `reserveQuantity` raises no error and issues a reservation (with an
undefined location), contradicting the claimed `LocationRequired`
failure. -/
theorem reserveQuantityLedger_no_error_without_location :
    reserveQuantityLedger
      ⟨[], [⟨"V1", "I1", 1⟩], fun _ => [], ["L1", "L2"], fun _ _ _ => true⟩
      "V1" 2 ⟨some "li1", none, none⟩ =
      .ok [⟨"order", some "li1", none, "I1", 2⟩] :=
  rfl

/-- C2 amended: in Ledger Mode `reserveQuantity` fails (with the
`INVALID_DATA` location message) exactly when the variant has at least
one link, no `locationId` is supplied, and a `salesChannelId` is supplied
that resolves to zero locations; when neither `locationId` nor
`salesChannelId` is supplied, the call succeeds and creates the per-link
reservations with an undefined location, regardless of how many stock
locations exist. -/
theorem reserveQuantityLedger_location_error_iff (env : Env) (vid : String)
    (quantity : Int) (ctx : ReserveCtx) :
    (reserveQuantityLedger env vid quantity ctx =
        .error (.invalidData locationRequiredMsg) ↔
      (listByVariant env.links vid ≠ [] ∧ ctx.locationId = none ∧
        ∃ sc, ctx.salesChannelId = some sc ∧ env.channelLocations sc = [])) ∧
    (ctx.locationId = none → ctx.salesChannelId = none →
      reserveQuantityLedger env vid quantity ctx =
        .ok ((listByVariant env.links vid).map (fun l =>
          ⟨"order", ctx.lineItemId, none, l.inventory_item_id,
            l.quantity * quantity⟩))) := by
  obtain ⟨li, lo, sc⟩ := ctx
  constructor
  · unfold reserveQuantityLedger resolveReserveLocation
    cases hL : listByVariant env.links vid with
    | nil => simp
    | cons a as =>
      cases lo with
      | some l => simp
      | none =>
        cases sc with
        | none => simp
        | some s =>
          cases hC : env.channelLocations s with
          | nil => simp [hC]
          | cons c cs => simp [hC]
  · intro hlo hsc
    subst hlo
    subst hsc
    unfold reserveQuantityLedger resolveReserveLocation
    cases hL : listByVariant env.links vid with
    | nil => simp
    | cons a as => simp [hL]

/-- Witness for `reserveQuantityLedger_location_error_iff`: with one
link, no location and an empty sales channel, the call fails with the
location message; and with neither supplied it succeeds. -/
theorem reserveQuantityLedger_location_error_iff_witness :
    reserveQuantityLedger
      ⟨[], [⟨"V1", "I1", 2⟩], fun _ => [], ["L1", "L2"], fun _ _ _ => true⟩
      "V1" 3 ⟨some "li1", none, some "chan"⟩ =
      .error (.invalidData locationRequiredMsg) ∧
    reserveQuantityLedger
      ⟨[], [⟨"V1", "I1", 2⟩], fun _ => [], ["L1", "L2"], fun _ _ _ => true⟩
      "V1" 3 ⟨some "li1", none, none⟩ =
      .ok [⟨"order", some "li1", none, "I1", 6⟩] :=
  ⟨(reserveQuantityLedger_location_error_iff
      ⟨[], [⟨"V1", "I1", 2⟩], fun _ => [], ["L1", "L2"], fun _ _ _ => true⟩
      "V1" 3 ⟨some "li1", none, some "chan"⟩).1.mpr
      ⟨by decide, rfl, "chan", rfl, rfl⟩,
   (reserveQuantityLedger_location_error_iff
      ⟨[], [⟨"V1", "I1", 2⟩], fun _ => [], ["L1", "L2"], fun _ _ _ => true⟩
      "V1" 3 ⟨some "li1", none, none⟩).2 rfl rfl⟩

/-- C3 counterexample: variant `V1` and item `I1` both exist and are
already linked (multiplier 2); `attachInventoryItem` with `quantity = 0`
returns the existing link with the table unchanged instead of failing
with `InvalidQuantity` — the existing-link check runs before the quantity
validation. -/
theorem attachInventoryItem_zero_quantity_on_linked_pair :
    attachInventoryItem [⟨"V1", false, true, 10⟩] ["I1"] [⟨"V1", "I1", 2⟩]
      "V1" "I1" (some 0) = .ok (⟨"V1", "I1", 2⟩, [⟨"V1", "I1", 2⟩]) :=
  rfl

/-- C3 amended: with the variant and item both existing, `attach` with
`quantity = 0` fails with `InvalidQuantity` when the pair is not yet
linked; when the pair is already linked, `attach` returns the existing
link with the table unchanged for any supplied quantity, including 0. -/
theorem attachInventoryItem_spec (variants : List Variant)
    (inventoryItems : List String) (links : List Link)
    (variantId inventoryItemId : String) (v : Variant)
    (hv : variants.find? (fun x => x.id == variantId) = some v)
    (hi : inventoryItems.contains inventoryItemId = true) :
    (links.find? (fun l => l.variant_id == variantId &&
        l.inventory_item_id == inventoryItemId) = none →
      attachInventoryItem variants inventoryItems links variantId
        inventoryItemId (some 0) =
        .error (.invalidData "Quantity must be greater than 0")) ∧
    (∀ existing,
      links.find? (fun l => l.variant_id == variantId &&
        l.inventory_item_id == inventoryItemId) = some existing →
      ∀ quantity, attachInventoryItem variants inventoryItems links variantId
        inventoryItemId quantity = .ok (existing, links)) := by
  constructor
  · intro hnone
    simp [attachInventoryItem, retrieveVariant, hv, hi, hnone]
    exact List.mem_of_elem_eq_true hi
  · intro existing hsome quantity
    simp [attachInventoryItem, retrieveVariant, hv, hi, hsome]
    exact List.mem_of_elem_eq_true hi

/-- Witness for `attachInventoryItem_spec`: an unlinked pair rejects
quantity 0; a linked pair returns its existing multiplier-2 link even
when re-attached with quantity 0. -/
theorem attachInventoryItem_spec_witness :
    attachInventoryItem [⟨"V1", false, true, 10⟩] ["I1"] [] "V1" "I1"
      (some 0) = .error (.invalidData "Quantity must be greater than 0") ∧
    attachInventoryItem [⟨"V1", false, true, 10⟩] ["I1"] [⟨"V1", "I1", 2⟩]
      "V1" "I1" (some 0) = .ok (⟨"V1", "I1", 2⟩, [⟨"V1", "I1", 2⟩]) :=
  ⟨(attachInventoryItem_spec [⟨"V1", false, true, 10⟩] ["I1"] [] "V1" "I1"
      ⟨"V1", false, true, 10⟩ rfl rfl).1 rfl,
   (attachInventoryItem_spec [⟨"V1", false, true, 10⟩] ["I1"]
      [⟨"V1", "I1", 2⟩] "V1" "I1" ⟨"V1", false, true, 10⟩ rfl rfl).2
      ⟨"V1", "I1", 2⟩ rfl (some 0)⟩

/-- C5: in Ledger Mode, for a tracked variant (no backorder, managed
inventory), `confirmInventory` returns exactly the conjunction over all
linked items of the ledger confirming `link.quantity * quantity` across
the resolved locations — any single shortage makes it `false` — and a
variant with zero linked items yields `true` for any quantity. -/
theorem confirmInventory_ledger_all_links (env : Env) (vid : String)
    (v : Variant) (quantity : Int) (scid : Option String)
    (hv : env.variants.find? (fun x => x.id == vid) = some v)
    (hb : v.allow_backorder = false) (hm : v.manage_inventory = true) :
    confirmInventory env true (some vid) quantity scid =
      .ok ((listByVariant env.links vid).all (fun l =>
        env.confirmAvail l.inventory_item_id (confirmLocations env scid)
          (l.quantity * quantity))) ∧
    (listByVariant env.links vid = [] →
      confirmInventory env true (some vid) quantity scid = .ok true) := by
  have hmain : confirmInventory env true (some vid) quantity scid =
      .ok ((listByVariant env.links vid).all (fun l =>
        env.confirmAvail l.inventory_item_id (confirmLocations env scid)
          (l.quantity * quantity))) := by
    simp only [confirmInventory, retrieveVariant, hv, hb, hm]
    cases hL : listByVariant env.links vid with
    | nil => simp
    | cons a as => simp [hL]
  exact ⟨hmain, fun hL => by simp [hmain, hL]⟩

/-- Witness for `confirmInventory_ledger_all_links`, the spec's scenario:
`V1` links to `I1` (multiplier 2) and `I2` (multiplier 1); the ledger has
only 5 of `I1`, so confirming quantity 3 (needing 6 of `I1`) yields
`false` even though `I2` is fully available. -/
theorem confirmInventory_ledger_all_links_witness :
    confirmInventory
      ⟨[⟨"V1", false, true, 0⟩], [⟨"V1", "I1", 2⟩, ⟨"V1", "I2", 1⟩],
        fun _ => [], ["L1"],
        fun item _ q => if item == "I1" then decide (q ≤ 5) else true⟩
      true (some "V1") 3 none = .ok false :=
  ((confirmInventory_ledger_all_links
      ⟨[⟨"V1", false, true, 0⟩], [⟨"V1", "I1", 2⟩, ⟨"V1", "I2", 1⟩],
        fun _ => [], ["L1"],
        fun item _ q => if item == "I1" then decide (q ≤ 5) else true⟩
      "V1" ⟨"V1", false, true, 0⟩ 3 none rfl rfl rfl).1).trans rfl

/-- C6: in Ledger Mode, once the location resolves, `reserveQuantity` of
quantity `Q` issues exactly one `createReservationItem` per linked item,
of `link.quantity * Q` units at the resolved location, tagged
`type = "order"` with the context's `lineItemId` — in particular zero
linked items issue no reservations. -/
theorem reserveQuantityLedger_creates_per_link (env : Env) (vid : String)
    (quantity : Int) (ctx : ReserveCtx) (loc : Option String)
    (hloc : resolveReserveLocation env ctx = .ok loc) :
    reserveQuantityLedger env vid quantity ctx =
      .ok ((listByVariant env.links vid).map (fun l =>
        ⟨"order", ctx.lineItemId, loc, l.inventory_item_id,
          l.quantity * quantity⟩)) := by
  unfold reserveQuantityLedger
  cases hL : listByVariant env.links vid with
  | nil => simp
  | cons a as => simp [hL, hloc]

/-- Witness for `reserveQuantityLedger_creates_per_link`: reserving 3 of
a variant linked to `I1` (multiplier 2) and `I2` (multiplier 1) at an
explicit location creates exactly the reservations of 6 and 3 units. -/
theorem reserveQuantityLedger_creates_per_link_witness :
    reserveQuantityLedger
      ⟨[], [⟨"V1", "I1", 2⟩, ⟨"V1", "I2", 1⟩], fun _ => [], ["L1"],
        fun _ _ _ => true⟩
      "V1" 3 ⟨some "li1", some "loc-1", none⟩ =
      .ok [⟨"order", some "li1", some "loc-1", "I1", 6⟩,
        ⟨"order", some "li1", some "loc-1", "I2", 3⟩] :=
  reserveQuantityLedger_creates_per_link
    ⟨[], [⟨"V1", "I1", 2⟩, ⟨"V1", "I2", 1⟩], fun _ => [], ["L1"],
      fun _ _ _ => true⟩
    "V1" 3 ⟨some "li1", some "loc-1", none⟩ (some "loc-1") rfl

/-- C7: in Ledger Mode, the targeted reservation's new quantity is the
old quantity minus `quantity * link.quantity`; exactly zero deletes the
reservation record, anything else updates it in place. -/
theorem adjustReservationsLedger_delta_formula (links : List Link)
    (reservations : List Reservation) (variantId locationId : String)
    (quantity : Int) (t : Reservation) (pvi : Link)
    (ht : pickReservation reservations locationId quantity = some t)
    (hlink : links.find? (fun l =>
      l.inventory_item_id == t.inventory_item_id
        && l.variant_id == variantId) = some pvi) :
    adjustReservationsQuantityByLineItemLedger links reservations variantId
      locationId quantity =
      if t.quantity - quantity * pvi.quantity = 0 then
        .ok (.delete t.id)
      else
        .ok (.update t.id (t.quantity - quantity * pvi.quantity)) := by
  unfold adjustReservationsQuantityByLineItemLedger
  rw [ht]
  simp only [hlink]
  by_cases h : t.quantity - quantity * pvi.quantity = 0 <;> simp [h]

/-- Witness for `adjustReservationsLedger_delta_formula`: a reservation
of 6 units adjusted by delta 2 against a multiplier-3 link lands on
exactly zero and is deleted. -/
theorem adjustReservationsLedger_delta_formula_witness :
    adjustReservationsQuantityByLineItemLedger [⟨"V1", "I1", 3⟩]
      [⟨"r1", "I1", "loc-1", 6, 1⟩] "V1" "loc-1" 2 =
      .ok (.delete "r1") :=
  (adjustReservationsLedger_delta_formula [⟨"V1", "I1", 3⟩]
    [⟨"r1", "I1", "loc-1", 6, 1⟩] "V1" "loc-1" 2
    ⟨"r1", "I1", "loc-1", 6, 1⟩ ⟨"V1", "I1", 3⟩ rfl rfl).trans rfl

/-- C9: in Simple Mode, for a variant with `manage_inventory = false`,
`reserveQuantity` still decrements the counter by the requested quantity
(it selects only `id` and `inventory_quantity` and never consults the
flag), while `adjustReservationsQuantityByLineItem` and
`deleteReservationsByLineItem` leave the store untouched. -/
theorem simpleMode_reserve_ignores_manage_inventory (variants : List Variant)
    (variantId : String) (v : Variant) (quantity : Int)
    (hv : variants.find? (fun x => x.id == variantId) = some v)
    (hm : v.manage_inventory = false) :
    reserveQuantitySimple variants variantId quantity =
      .ok (variants.map (fun x =>
        if x.id == v.id then
          { x with inventory_quantity := x.inventory_quantity - quantity }
        else x)) ∧
    adjustReservationsQuantityByLineItemSimple variants variantId quantity =
      .ok variants ∧
    deleteReservationsByLineItemSimple variants variantId quantity =
      .ok variants := by
  refine ⟨?_, ?_, ?_⟩
  · simp [reserveQuantitySimple, retrieveVariant, hv]
  · simp [adjustReservationsQuantityByLineItemSimple, retrieveVariant, hv, hm]
  · simp [deleteReservationsByLineItemSimple, retrieveVariant, hv, hm]

/-- Witness for `simpleMode_reserve_ignores_manage_inventory`: an
unmanaged variant at 10 units drops to 6 on `reserve` of 4, while
`adjustByLineItem` and `release` of the same 4 change nothing. -/
theorem simpleMode_reserve_ignores_manage_inventory_witness :
    reserveQuantitySimple [⟨"V1", false, false, 10⟩] "V1" 4 =
      .ok [⟨"V1", false, false, 6⟩] ∧
    adjustReservationsQuantityByLineItemSimple [⟨"V1", false, false, 10⟩]
      "V1" 4 = .ok [⟨"V1", false, false, 10⟩] ∧
    deleteReservationsByLineItemSimple [⟨"V1", false, false, 10⟩] "V1" 4 =
      .ok [⟨"V1", false, false, 10⟩] := by
  have h := simpleMode_reserve_ignores_manage_inventory
    [⟨"V1", false, false, 10⟩] "V1" ⟨"V1", false, false, 10⟩ 4 rfl rfl
  exact ⟨h.1.trans rfl, h.2.1, h.2.2⟩

/-- C4 counterexample: reservations listed DESC are `r1` (loc-2, qty 10,
newer) then `r2` (loc-1, qty 2, older); the adjustment is `-5` at
`loc-1`.  The claim's magnitude rule (|−5| = 5 > 2) would fall back to
the most recent `r1`, but the source compares against the signed delta
(`2 ≥ −5`), so it targets `r2` — the end-to-end call updates `r2` to 7
instead of touching `r1`. -/
theorem adjustTarget_signed_not_magnitude :
    sortedByCreatedDesc
      [⟨"r1", "I1", "loc-2", 10, 2⟩, ⟨"r2", "I2", "loc-1", 2, 1⟩] ∧
    pickReservation
      [⟨"r1", "I1", "loc-2", 10, 2⟩, ⟨"r2", "I2", "loc-1", 2, 1⟩]
      "loc-1" (-5) = some ⟨"r2", "I2", "loc-1", 2, 1⟩ ∧
    claimPickReservation
      [⟨"r1", "I1", "loc-2", 10, 2⟩, ⟨"r2", "I2", "loc-1", 2, 1⟩]
      "loc-1" (-5) = some ⟨"r1", "I1", "loc-2", 10, 2⟩ ∧
    adjustReservationsQuantityByLineItemLedger [⟨"V1", "I2", 1⟩]
      [⟨"r1", "I1", "loc-2", 10, 2⟩, ⟨"r2", "I2", "loc-1", 2, 1⟩]
      "V1" "loc-1" (-5) = .ok (.update "r2" 7) := by
  refine ⟨?_, by decide, by decide, rfl⟩
  simp [sortedByCreatedDesc]

/-- C4 amended: in Ledger Mode the adjustment targets one of the listed
reservations; when some reservation at `locationId` has quantity at least
the signed requested delta it targets such a reservation (for a negative
delta this is any reservation at that location — the source compares
`r.quantity >= quantity` with the signed value, not its magnitude);
otherwise it targets the most recently created reservation. -/
theorem adjustReservations_target_selection (reservations : List Reservation)
    (locationId : String) (quantity : Int) (r0 t : Reservation)
    (hsorted : sortedByCreatedDesc reservations)
    (hhead : reservations.head? = some r0)
    (ht : pickReservation reservations locationId quantity = some t) :
    t ∈ reservations ∧
    ((∃ r ∈ reservations, r.location_id = locationId ∧ quantity ≤ r.quantity) →
      t.location_id = locationId ∧ quantity ≤ t.quantity) ∧
    ((∀ r ∈ reservations, r.location_id = locationId → r.quantity < quantity) →
      t = r0 ∧ ∀ r ∈ reservations, r.created_at ≤ t.created_at) := by
  cases reservations with
  | nil => simp at hhead
  | cons a as =>
    simp only [List.head?_cons, Option.some.injEq] at hhead
    subst hhead
    simp only [pickReservation, Option.some.injEq] at ht
    cases hf : (a :: as).find? (fun r =>
        r.location_id == locationId && decide (quantity ≤ r.quantity)) with
    | some x =>
      rw [hf] at ht
      simp only [Option.getD_some] at ht
      subst ht
      have hx := List.find?_some hf
      simp only [Bool.and_eq_true, beq_iff_eq, decide_eq_true_eq] at hx
      have hmem := List.mem_of_find?_eq_some hf
      refine ⟨hmem, fun _ => hx, fun hall => absurd (hx.2) ?_⟩
      exact not_le_of_lt (hall x hmem hx.1)
    | none =>
      rw [hf] at ht
      simp only [Option.getD_none] at ht
      subst ht
      have hnone := List.find?_eq_none.mp hf
      refine ⟨List.mem_cons_self _ _, ?_, ?_⟩
      · rintro ⟨r, hr, hloc, hq⟩
        exact absurd (by simp [hloc, hq]) (hnone r hr)
      · intro _
        refine ⟨rfl, ?_⟩
        intro r hr
        rcases List.mem_cons.mp hr with h | h
        · rw [h]
        · exact (List.pairwise_cons.mp hsorted).1 r h

/-- Witness for `adjustReservations_target_selection`: with the same
DESC-ordered pair of reservations and a positive delta of 1 at `loc-1`,
the reservation at `loc-1` with quantity 2 ≥ 1 is preferred over the more
recent one at `loc-2`. -/
theorem adjustReservations_target_selection_witness :
    (⟨"r2", "I2", "loc-1", 2, 1⟩ : Reservation) ∈
      [⟨"r1", "I1", "loc-2", 10, 2⟩, ⟨"r2", "I2", "loc-1", 2, 1⟩] ∧
    ((∃ r ∈ [(⟨"r1", "I1", "loc-2", 10, 2⟩ : Reservation),
        ⟨"r2", "I2", "loc-1", 2, 1⟩],
        r.location_id = "loc-1" ∧ (1 : Int) ≤ r.quantity) →
      (⟨"r2", "I2", "loc-1", 2, 1⟩ : Reservation).location_id = "loc-1" ∧
        (1 : Int) ≤ (⟨"r2", "I2", "loc-1", 2, 1⟩ : Reservation).quantity) ∧
    ((∀ r ∈ [(⟨"r1", "I1", "loc-2", 10, 2⟩ : Reservation),
        ⟨"r2", "I2", "loc-1", 2, 1⟩],
        r.location_id = "loc-1" → r.quantity < (1 : Int)) →
      (⟨"r2", "I2", "loc-1", 2, 1⟩ : Reservation) =
          ⟨"r1", "I1", "loc-2", 10, 2⟩ ∧
        ∀ r ∈ [(⟨"r1", "I1", "loc-2", 10, 2⟩ : Reservation),
          ⟨"r2", "I2", "loc-1", 2, 1⟩],
          r.created_at ≤
            (⟨"r2", "I2", "loc-1", 2, 1⟩ : Reservation).created_at) :=
  adjustReservations_target_selection
    [⟨"r1", "I1", "loc-2", 10, 2⟩, ⟨"r2", "I2", "loc-1", 2, 1⟩]
    "loc-1" 1 ⟨"r1", "I1", "loc-2", 10, 2⟩ ⟨"r2", "I2", "loc-1", 2, 1⟩
    (by simp [sortedByCreatedDesc]) rfl (by decide)

end MedusaInventory
